import Mathlib

/-!
Verification of the osgEarth `CacheBin.cpp` write pipeline and read-side
pseudoloader, as a shallow embedding.

The embedded code (src/src/osgEarth/CacheBin.cpp):
* `PrepareForCaching` — graph sanitizer: strips user-data containers and
  processes texture slots of state sets (`prepareTextureSlot` below).
* `WriteExternalReferencesToCache` — asset externalizer: per image, derives a
  cache key from the file name, deduplicates cache writes against the record
  status, and rewrites the file name (`writeExternalApply` below).
* `CacheBin::writeNode` — the orchestrator (`writeNodeRun` below).
* `osgEarthReadImageFromCachePseudoLoader` — read-side reference resolver
  (`plReadObject` / `plReadImage` below).

External collaborators (the CacheBin key/value store, `osgEarth::hashString`,
and the osgDB file-name utilities) are not in src/; they are modelled from the
spec, each marked in its doc comment.
-/

namespace CacheBinSpec

/-- Write hint of an `osg::Image` (osg enum `Image::WriteHint`). -/
inductive WriteHint where
  | NO_PREFERENCE
  | STORE_INLINE
  | EXTERNAL_FILE
  deriving DecidableEq

/-- An `osg::Image` as the pipeline sees it: a file-name identifier, a write
hint, and whether a user-data container is attached (the pipeline only ever
detaches it, so a `Bool` suffices). -/
structure Image where
  fileName : String
  writeHint : WriteHint
  userData : Bool
  deriving DecidableEq

/-- `CacheBin::RecordStatus` (tri-state presence indicator). -/
inductive RecordStatus where
  | STATUS_OK
  | STATUS_NOT_FOUND
  | STATUS_EXPIRED
  deriving DecidableEq

/-- Modelled from the spec: the Cache Bin external collaborator (§2, §6 of the
spec; its implementation is not in src/). `baseStatus` gives the record status
of keys present before this pipeline ran, `writeOk` says whether the bin
accepts a write of a given key, and `written` accumulates the keys successfully
written so far (a successful write makes the record status `OK`, per §4.2
step 5: "the asset is already cached by some prior write"). -/
structure BinState where
  baseStatus : String → RecordStatus
  writeOk : String → Bool
  written : List String

/-- Modelled from the spec: `CacheBin::getRecordStatus` — a key successfully
written reads back as `STATUS_OK`; otherwise the pre-existing status. -/
def getRecordStatus (b : BinState) (k : String) : RecordStatus :=
  if k ∈ b.written then RecordStatus.STATUS_OK else b.baseStatus k

/-- Modelled from the spec: `CacheBin::write` — returns whether the bin
accepted the write, recording the key when it did. -/
def binWrite (b : BinState) (k : String) : BinState × Bool :=
  if b.writeOk k then ({ b with written := k :: b.written }, true) else (b, false)

/-- `osgEarth::startsWith` (StringUtils, not in src/): string prefix test. -/
def oeStartsWith (s p : String) : Bool :=
  p.data.isPrefixOf s.data

/-- Modelled from the spec: `osgEarth::hashString` (StringUtils, not in src/).
The spec fixes only that it is a deterministic hash of the path string whose
unsigned 32-bit value is rendered in hex (§3 "Cache Key"); the concrete mixing
function is a stand-in, with the 32-bit wrap made explicit. -/
def hashString (s : String) : Nat :=
  s.data.foldl (fun h c => (h * 31 + c.toNat) % 4294967296) 5381

/-- Rendering of an unsigned value by `std::hex` on an `ostream`: lowercase
hexadecimal digits, no leading zeros (`"0"` for zero). -/
def toHexLower (n : Nat) : String :=
  String.mk (Nat.toDigits 16 n)

/-- The literal `IMAGE_PREFIX` macro: the cache-key namespace for images. -/
def IMAGE_PREFIX : String := "i_"

/-- The literal indirection-marker extension appended to rewritten file names
(`image.setFileName(cacheKey + ".osgearth_cachebin")`). -/
def CACHEBIN_EXT : String := ".osgearth_cachebin"

/-- Outcome of one `WriteExternalReferencesToCache::apply(osg::Image&)` call:
the image as left by the call, the bin afterwards, whether a byte-write was
attempted and whether it succeeded, and whether the blank-filename warning
fired. -/
structure ExternalizeResult where
  image : Image
  bin : BinState
  attemptedWrite : Bool
  writeSucceeded : Bool
  warnedBlank : Bool

/-- `WriteExternalReferencesToCache::apply(osg::Image&)`. The mutex-guarded
double check of the prefix collapses to a single check in this sequential
model. Note the code only warns on a blank file name and then falls through to
the normal path; it does not skip the image. -/
def writeExternalApply (bin : BinState) (image : Image) : ExternalizeResult :=
  let path := image.fileName
  let warnedBlank := path.isEmpty
  if oeStartsWith path IMAGE_PREFIX then
    { image := image, bin := bin, attemptedWrite := false,
      writeSucceeded := false, warnedBlank := warnedBlank }
  else
    let cacheKey := IMAGE_PREFIX ++ toHexLower (hashString path)
    let image' : Image :=
      { image with fileName := cacheKey ++ CACHEBIN_EXT,
                   writeHint := WriteHint.EXTERNAL_FILE }
    if getRecordStatus bin cacheKey ≠ RecordStatus.STATUS_OK then
      let w := binWrite bin cacheKey
      { image := image', bin := w.1, attemptedWrite := true,
        writeSucceeded := w.2, warnedBlank := warnedBlank }
    else
      { image := image', bin := bin, attemptedWrite := false,
        writeSucceeded := false, warnedBlank := warnedBlank }

/-- An `osg::Texture` state attribute as the sanitizer sees it: the
"unref image data after apply" flag, whether a user-data container is attached,
and the indices (into an image heap) of the images it holds. A shallow clone
(`osg::CopyOp::SHALLOW_COPY`) copies these fields and shares the image
handles, i.e. the indices. -/
structure Texture where
  unRefImageDataAfterApply : Bool
  userData : Bool
  images : List Nat
  deriving DecidableEq

/-- `PrepareForCaching::applyUserData` on an image reached through a texture:
detaches the user-data container of the heap cell `k` (`setUserDataContainer(0)`);
a null image (index out of range) is skipped, as in the code's null check. -/
def applyUserDataImage (heap : List Image) (k : Nat) : List Image :=
  match heap.get? k with
  | some img => heap.set k { img with userData := false }
  | none => heap

/-- Outcome of sanitizing one texture slot of a state set: the state of the
original texture object after the call, the contents of the texture slot after
the call, and the image heap (shared by original and clone). -/
structure TexSlotResult where
  original : Texture
  slot : Texture
  heap : List Image
  deriving DecidableEq

/-- The texture branch of `PrepareForCaching::apply(osg::StateSet*)` for one
texture slot holding `tex`. Mirrors the code exactly:
`tex->setUnRefImageDataAfterApply(false)` mutates the original object in
place; then a shallow clone is attempted (`cloneOk` models whether `osg::clone`
returns non-null); on success, user data is detached from the clone's images
(shared with the original, hence the heap update) and from the clone itself,
and the clone is substituted into the slot; on failure only a warning is
emitted and the slot keeps the original. -/
def prepareTextureSlot (cloneOk : Bool) (tex : Texture) (heap : List Image) :
    TexSlotResult :=
  let tex1 : Texture := { tex with unRefImageDataAfterApply := false }
  if cloneOk then
    let heap1 := tex1.images.foldl applyUserDataImage heap
    let texClone : Texture := { tex1 with userData := false }
    { original := tex1, slot := texClone, heap := heap1 }
  else
    { original := tex1, slot := tex1, heap := heap }

/-- Sanitize every texture slot of a graph, threading the image heap. -/
def prepareAll (cloneOk : Bool) : List Texture → List Image → List Texture × List Image
  | [], heap => ([], heap)
  | t :: rest, heap =>
    let r := prepareTextureSlot cloneOk t heap
    let p := prepareAll cloneOk rest r.heap
    (r.slot :: p.1, p.2)

/-- Run `WriteExternalReferencesToCache::apply` over every image of the graph
in order, threading the bin state; returns the final bin and the images as
rewritten. -/
def externalizeAll (bin : BinState) : List Image → BinState × List Image
  | [] => (bin, [])
  | i :: rest =>
    let r := writeExternalApply bin i
    let p := externalizeAll r.bin rest
    (p.1, r.image :: p.2)

/-- The part of the scene graph the pipeline acts on: the texture slots of all
state sets, and the heap of images those textures reference. -/
structure Graph where
  slots : List Texture
  heap : List Image

/-- Outcome of `CacheBin::writeNode`: the bin afterwards, the transformed
graph, whether the final graph-serialize call succeeded, and the value
`writeNode` returns. -/
structure WriteNodeResult where
  bin : BinState
  graph : Graph
  serializeOk : Bool
  ret : Bool

/-- `CacheBin::writeNode(key, node, metadata, writeOptions)`: runs
`PrepareForCaching`, then `WriteExternalReferencesToCache`, then the final
`write(key, node, metadata, writeOptions)` — whose boolean result the code
discards — and returns `true` unconditionally. -/
def writeNodeRun (bin : BinState) (cloneOk : Bool) (key : String) (g : Graph) :
    WriteNodeResult :=
  let prepped := prepareAll cloneOk g.slots g.heap
  let ext := externalizeAll bin prepped.2
  let fin := binWrite ext.1 key
  { bin := fin.1, graph := { slots := prepped.1, heap := ext.2 },
    serializeOk := fin.2, ret := true }

/-- `osgDB::ReaderWriter::ReadResult` as the pseudoloader can produce it:
not handled, not found, an error, or a loaded resource (payload abstracted
to a `Nat` handle). -/
inductive PLResult where
  | FILE_NOT_HANDLED
  | FILE_NOT_FOUND
  | ERROR_IN_READING_FILE
  | FILE_LOADED (payload : Nat)
  deriving DecidableEq

/-- Modelled from the spec: the read-side face of the Cache Bin (§6) —
`readObject` and `readImage` each either succeed with a resource or fail
(`none` covers every failure, including a cache miss). -/
structure CacheBinRead where
  readObject : String → Option Nat
  readImage : String → Option Nat

/-- Splits a character list at its last `'.'`: `some (before, after)` when a
dot exists, `none` otherwise. -/
def splitLastDot : List Char → Option (List Char × List Char)
  | [] => none
  | c :: cs =>
    match splitLastDot cs with
    | some p => some (c :: p.1, p.2)
    | none => if c = '.' then some ([], cs) else none

/-- `osgDB::getFileExtension`: the characters after the last dot, `""` when
there is none (path separators are not modelled; the pipeline's URLs contain
none). -/
def getFileExtension (url : String) : String :=
  match splitLastDot url.data with
  | some p => String.mk p.2
  | none => ""

/-- Character-wise lowercasing, as `osgDB::convertToLowerCase` does. -/
def toLowerStr (s : String) : String :=
  String.mk (s.data.map Char.toLower)

/-- `osgDB::getLowerCaseFileExtension`: the extension, lowercased. -/
def getLowerCaseFileExtension (url : String) : String :=
  toLowerStr (getFileExtension url)

/-- `osgDB::getNameLessExtension`: everything before the last dot; the whole
name when there is no dot. -/
def getNameLessExtension (url : String) : String :=
  match splitLastDot url.data with
  | some p => String.mk p.1
  | none => url

/-- `osgEarthReadImageFromCachePseudoLoader::readObject`: intercept only the
`osgearth_cachebin` extension (case-insensitively); without a Cache Bin in the
read options report not-found; otherwise strip the extension to recover the
cache key and translate the bin's `readObject` outcome. -/
def plReadObject (ctx : Option CacheBinRead) (url : String) : PLResult :=
  if getLowerCaseFileExtension url ≠ "osgearth_cachebin" then
    PLResult.FILE_NOT_HANDLED
  else
    match ctx with
    | none => PLResult.FILE_NOT_FOUND
    | some bin =>
      match bin.readObject (getNameLessExtension url) with
      | some obj => PLResult.FILE_LOADED obj
      | none => PLResult.FILE_NOT_FOUND

/-- `osgEarthReadImageFromCachePseudoLoader::readImage`: as `plReadObject`,
but resolving through the bin's `readImage` entry point. -/
def plReadImage (ctx : Option CacheBinRead) (url : String) : PLResult :=
  if getLowerCaseFileExtension url ≠ "osgearth_cachebin" then
    PLResult.FILE_NOT_HANDLED
  else
    match ctx with
    | none => PLResult.FILE_NOT_FOUND
    | some bin =>
      match bin.readImage (getNameLessExtension url) with
      | some img => PLResult.FILE_LOADED img
      | none => PLResult.FILE_NOT_FOUND

/-! Helper lemmas shared by the claim theorems. -/

/-- A list is a prefix of itself followed by anything. -/
theorem isPrefixOf_append_self (l t : List Char) : l.isPrefixOf (l ++ t) = true := by
  induction l with
  | nil => simp [List.isPrefixOf]
  | cons a as ih => simp [List.isPrefixOf, ih]

/-- A string built by appending to `p` on the right starts with `p`. -/
theorem oeStartsWith_append2 (p x y : String) :
    oeStartsWith ((p ++ x) ++ y) p = true := by
  simp [oeStartsWith, List.append_assoc, isPrefixOf_append_self]

/-- An image whose file name already carries the namespace marker is left
entirely alone by the externalizer. -/
theorem writeExternalApply_skip (b : BinState) (i : Image)
    (h : oeStartsWith i.fileName IMAGE_PREFIX = true) :
    writeExternalApply b i =
      { image := i, bin := b, attemptedWrite := false, writeSucceeded := false,
        warnedBlank := i.fileName.isEmpty } := by
  simp [writeExternalApply, h]

/-- After one externalizer visit, the image's file name always carries the
namespace marker (it either already did, or was just rewritten). -/
theorem writeExternalApply_image_prefixed (b : BinState) (i : Image) :
    oeStartsWith (writeExternalApply b i).image.fileName IMAGE_PREFIX = true := by
  unfold writeExternalApply
  by_cases h : oeStartsWith i.fileName IMAGE_PREFIX = true
  · simp [h]
  · simp only [Bool.not_eq_true] at h
    simp only [h, Bool.false_eq_true, if_false]
    split
    · exact oeStartsWith_append2 ..
    · exact oeStartsWith_append2 ..

/-- The externalizer rewrites a not-yet-marked file name to the derived cache
key plus the indirection extension, on both sides of the record-status test. -/
theorem writeExternalApply_fileName (b : BinState) (i : Image)
    (h : oeStartsWith i.fileName IMAGE_PREFIX = false) :
    (writeExternalApply b i).image.fileName
      = (IMAGE_PREFIX ++ toHexLower (hashString i.fileName)) ++ CACHEBIN_EXT := by
  simp only [writeExternalApply, h, Bool.false_eq_true, if_false]
  split <;> rfl

/-- When the bin accepts the write of the derived key, the key reads back as
`STATUS_OK` after one externalizer visit of a not-yet-marked image. -/
theorem writeExternalApply_makes_ok (b : BinState) (i : Image)
    (h : oeStartsWith i.fileName IMAGE_PREFIX = false)
    (hw : b.writeOk (IMAGE_PREFIX ++ toHexLower (hashString i.fileName)) = true) :
    getRecordStatus (writeExternalApply b i).bin
      (IMAGE_PREFIX ++ toHexLower (hashString i.fileName)) = RecordStatus.STATUS_OK := by
  simp only [writeExternalApply, h, Bool.false_eq_true, if_false]
  split
  · next hok =>
      simp [binWrite, hw, getRecordStatus]
  · next hok =>
      simpa using hok

/-- No byte-write is attempted when the derived key's record status is OK. -/
theorem writeExternalApply_no_write_of_ok (b : BinState) (i : Image)
    (hok : getRecordStatus b (IMAGE_PREFIX ++ toHexLower (hashString i.fileName)) =
      RecordStatus.STATUS_OK) :
    (writeExternalApply b i).attemptedWrite = false := by
  by_cases h : oeStartsWith i.fileName IMAGE_PREFIX = true
  · simp [writeExternalApply, h]
  · simp only [Bool.not_eq_true] at h
    simp only [writeExternalApply, h, Bool.false_eq_true, if_false]
    rw [if_neg (not_not_intro hok)]

/-- Splitting at the last dot reassembles to the original list. -/
theorem splitLastDot_eq : ∀ (cs : List Char) (p : List Char × List Char),
    splitLastDot cs = some p → cs = p.1 ++ '.' :: p.2
  | [], p, h => by simp [splitLastDot] at h
  | c :: cs, p, h => by
    simp only [splitLastDot] at h
    cases hcs : splitLastDot cs with
    | some q =>
      rw [hcs] at h
      have hq := splitLastDot_eq cs q hcs
      cases h
      simpa using hq
    | none =>
      rw [hcs] at h
      by_cases hc : c = '.'
      · simp only [hc, if_pos rfl] at h
        cases h
        simp [hc]
      · simp [hc] at h

/-- A URL whose lowercased extension is the indirection marker has a dot. -/
theorem splitLastDot_some_of_ext (url : String)
    (h : getLowerCaseFileExtension url = "osgearth_cachebin") :
    (splitLastDot url.data).isSome = true := by
  cases hs : splitLastDot url.data with
  | some p => rfl
  | none =>
    exfalso
    simp [getLowerCaseFileExtension, getFileExtension, hs, toLowerStr] at h

/-- Stripping the extension removes exactly the part after the final dot: the
name-less-extension, a dot, and the (original-case) extension reassemble the
URL. -/
theorem strip_reconstruct (url : String)
    (h : getLowerCaseFileExtension url = "osgearth_cachebin") :
    getNameLessExtension url ++ "." ++ getFileExtension url = url := by
  have hs := splitLastDot_some_of_ext url h
  cases hs' : splitLastDot url.data with
  | none => rw [hs'] at hs; simp at hs
  | some p =>
    have he := splitLastDot_eq url.data p hs'
    simp only [getNameLessExtension, getFileExtension, hs']
    apply String.ext
    simp [String.data_append]
    exact he.symm

/-! The claims. -/

/-- Claim C1, counterexample: the claim says the sanitizer leaves the original
texture's "release image memory after use" flag unchanged and applies the
disabling only to a clone; but on a texture with the flag set, after the slot
is sanitized (with the clone succeeding) the original object's flag has been
changed in place. -/
theorem C1_counterexample :
    (prepareTextureSlot true ⟨true, true, [0]⟩
        [⟨"f.png", WriteHint.NO_PREFERENCE, true⟩]).original.unRefImageDataAfterApply
      ≠ (Texture.mk true true [0]).unRefImageDataAfterApply := by
  decide

/-- Claim C1, amended: the sanitizer disables the flag on the original texture
object in place, before cloning; the texture's own user data is stripped only
on the clone (the original's user data is unchanged), the clone shares the
original's image handles, and on clone failure no substitution and no
user-data stripping occurs — but the original's flag is still disabled. -/
theorem C1_sanitizer (cloneOk : Bool) (tex : Texture) (heap : List Image) :
    let r := prepareTextureSlot cloneOk tex heap
    r.original.userData = tex.userData ∧
    r.original.unRefImageDataAfterApply = false ∧
    r.original.images = tex.images ∧
    (cloneOk = true →
      r.slot.userData = false ∧
      r.slot.unRefImageDataAfterApply = false ∧
      r.slot.images = tex.images) ∧
    (cloneOk = false → r.slot = r.original ∧ r.heap = heap) := by
  cases cloneOk <;> simp [prepareTextureSlot]

/-- Claim C1, witness: the amended theorem evaluated at a concrete texture
with the flag and user data set, a one-image heap, and a successful clone. -/
theorem C1_witness :
    let tex : Texture := ⟨true, true, [0]⟩
    let heap : List Image := [⟨"f.png", WriteHint.NO_PREFERENCE, true⟩]
    let r := prepareTextureSlot true tex heap
    r.original.userData = tex.userData ∧
    r.original.unRefImageDataAfterApply = false ∧
    r.original.images = tex.images ∧
    (true = true →
      r.slot.userData = false ∧
      r.slot.unRefImageDataAfterApply = false ∧
      r.slot.images = tex.images) ∧
    (true = false → r.slot = r.original ∧ r.heap = heap) :=
  C1_sanitizer true ⟨true, true, [0]⟩ [⟨"f.png", WriteHint.NO_PREFERENCE, true⟩]

/-- Claim C2, counterexample: with a bin that rejects every write, the final
graph-serialize call fails yet `writeNode` still returns true, so "returns
false if and only if the final graph-serialize call fails" is false. -/
theorem C2_counterexample :
    ¬ (((writeNodeRun ⟨fun _ => RecordStatus.STATUS_NOT_FOUND, fun _ => false, []⟩
          true "tile" ⟨[], []⟩).ret = false) ↔
       ((writeNodeRun ⟨fun _ => RecordStatus.STATUS_NOT_FOUND, fun _ => false, []⟩
          true "tile" ⟨[], []⟩).serializeOk = false)) := by
  decide

/-- Claim C2, amended: `writeNode` always returns true — the boolean result of
the final graph-serialize call is discarded, so neither sanitize-phase nor
asset-phase issues nor even a failing final serialize cause it to report
failure. -/
theorem C2_writeNode_ret (b : BinState) (cloneOk : Bool) (key : String) (g : Graph) :
    (writeNodeRun b cloneOk key g).ret = true := rfl

/-- Claim C3, counterexample: the claim says a blank-named image is skipped
with no write and no rewrite; but on an image with an empty file name the
externalizer both attempts a Cache Bin write and rewrites the identifier. -/
theorem C3_counterexample :
    let r := writeExternalApply
      ⟨fun _ => RecordStatus.STATUS_NOT_FOUND, fun _ => true, []⟩
      ⟨"", WriteHint.NO_PREFERENCE, false⟩
    r.warnedBlank = true ∧ r.image.fileName ≠ "" ∧ r.attemptedWrite = true := by
  decide

/-- Claim C3, amended: for an Image Resource with an empty identifier the
externalizer reports the warning but does not skip: it derives the cache key
from the empty string, rewrites the identifier and write-hint, and performs
the byte-write exactly when the record status of that key is not OK. -/
theorem C3_blank_proceeds (b : BinState) (i : Image) (h : i.fileName = "") :
    let key := IMAGE_PREFIX ++ toHexLower (hashString "")
    let r := writeExternalApply b i
    r.warnedBlank = true ∧
    r.image.fileName = key ++ CACHEBIN_EXT ∧
    r.image.writeHint = WriteHint.EXTERNAL_FILE ∧
    (r.attemptedWrite = true ↔ getRecordStatus b key ≠ RecordStatus.STATUS_OK) := by
  have hns : oeStartsWith "" IMAGE_PREFIX = false := by decide
  by_cases hok : getRecordStatus b (IMAGE_PREFIX ++ toHexLower (hashString "")) =
      RecordStatus.STATUS_OK <;>
    simp [writeExternalApply, h, hns, hok, String.isEmpty]

/-- Claim C3, witness: the amended theorem at a concrete blank-named image and
an empty bin. -/
theorem C3_witness :
    let b : BinState := ⟨fun _ => RecordStatus.STATUS_NOT_FOUND, fun _ => true, []⟩
    let i : Image := ⟨"", WriteHint.NO_PREFERENCE, false⟩
    let key := IMAGE_PREFIX ++ toHexLower (hashString "")
    let r := writeExternalApply b i
    i.fileName = "" ∧
    (r.warnedBlank = true ∧
     r.image.fileName = key ++ CACHEBIN_EXT ∧
     r.image.writeHint = WriteHint.EXTERNAL_FILE ∧
     (r.attemptedWrite = true ↔ getRecordStatus b key ≠ RecordStatus.STATUS_OK)) :=
  ⟨rfl, C3_blank_proceeds _ _ rfl⟩

/-- Claim C4: for a not-yet-prefixed image, a byte-write is attempted exactly
when the derived key's record status is not OK (so both EXPIRED and NOT_FOUND
trigger it and only OK suppresses it), while the identifier rewrite and the
external-file write-hint happen regardless of the status and of the write's
outcome (the theorem quantifies over every bin, including ones whose writes
fail). -/
theorem C4_status_gates_write (b : BinState) (i : Image)
    (h : oeStartsWith i.fileName IMAGE_PREFIX = false) :
    let key := IMAGE_PREFIX ++ toHexLower (hashString i.fileName)
    let r := writeExternalApply b i
    (r.attemptedWrite = true ↔ getRecordStatus b key ≠ RecordStatus.STATUS_OK) ∧
    (r.attemptedWrite = false ↔ getRecordStatus b key = RecordStatus.STATUS_OK) ∧
    r.image.fileName = key ++ CACHEBIN_EXT ∧
    r.image.writeHint = WriteHint.EXTERNAL_FILE := by
  by_cases hok : getRecordStatus b (IMAGE_PREFIX ++ toHexLower (hashString i.fileName)) =
      RecordStatus.STATUS_OK <;>
    simp [writeExternalApply, h, hok]

/-- Claim C4, witness: a bin whose record status is EXPIRED and whose writes
fail — the write is attempted (EXPIRED does not suppress it) and the rewrite
still happens. -/
theorem C4_witness :
    let b : BinState := ⟨fun _ => RecordStatus.STATUS_EXPIRED, fun _ => false, []⟩
    let i : Image := ⟨"/data/tex.png", WriteHint.NO_PREFERENCE, false⟩
    let key := IMAGE_PREFIX ++ toHexLower (hashString i.fileName)
    let r := writeExternalApply b i
    oeStartsWith i.fileName IMAGE_PREFIX = false ∧
    ((r.attemptedWrite = true ↔ getRecordStatus b key ≠ RecordStatus.STATUS_OK) ∧
     (r.attemptedWrite = false ↔ getRecordStatus b key = RecordStatus.STATUS_OK) ∧
     r.image.fileName = key ++ CACHEBIN_EXT ∧
     r.image.writeHint = WriteHint.EXTERNAL_FILE) :=
  ⟨by decide, C4_status_gates_write _ _ (by decide)⟩

/-- Claim C5: the derived cache key is the literal prefix `"i_"` followed by
the lowercase-hex rendering of `hashString path`, the rewritten identifier is
that key followed by the literal `".osgearth_cachebin"`, and the same original
identifier produces the same rewritten identifier in any two write operations
(any two bins). -/
theorem C5_key_format (b1 b2 : BinState) (i1 i2 : Image)
    (h1 : oeStartsWith i1.fileName IMAGE_PREFIX = false)
    (heq : i2.fileName = i1.fileName) :
    (writeExternalApply b1 i1).image.fileName
      = (IMAGE_PREFIX ++ toHexLower (hashString i1.fileName)) ++ CACHEBIN_EXT ∧
    (writeExternalApply b2 i2).image.fileName
      = (writeExternalApply b1 i1).image.fileName := by
  have h2 : oeStartsWith i2.fileName IMAGE_PREFIX = false := by rw [heq]; exact h1
  refine ⟨writeExternalApply_fileName b1 i1 h1, ?_⟩
  rw [writeExternalApply_fileName b1 i1 h1, writeExternalApply_fileName b2 i2 h2, heq]

/-- Claim C5, witness: the scenario's image `"/data/tex.png"` (its model hash
rendering in hex is `"6de3ff47"`, so the rewritten name is
`"i_6de3ff47.osgearth_cachebin"`). -/
theorem C5_witness :
    let b : BinState := ⟨fun _ => RecordStatus.STATUS_NOT_FOUND, fun _ => true, []⟩
    let i : Image := ⟨"/data/tex.png", WriteHint.NO_PREFERENCE, false⟩
    oeStartsWith i.fileName IMAGE_PREFIX = false ∧ i.fileName = i.fileName ∧
    ((writeExternalApply b i).image.fileName
       = (IMAGE_PREFIX ++ toHexLower (hashString i.fileName)) ++ CACHEBIN_EXT ∧
     (writeExternalApply b i).image.fileName = (writeExternalApply b i).image.fileName) :=
  ⟨by decide, rfl, C5_key_format _ _ _ _ (by decide) rfl⟩

/-- Claim C6: the externalizer is idempotent — a second visit of an image the
first visit left behind changes nothing (the prefix guard skips it), so the
identifier stays exactly as the first run left it and is never
double-prefixed. -/
theorem C6_idempotent (b : BinState) (i : Image) :
    let r1 := writeExternalApply b i
    let r2 := writeExternalApply r1.bin r1.image
    r2.image = r1.image ∧ r2.bin = r1.bin ∧ r2.attemptedWrite = false := by
  have hp := writeExternalApply_image_prefixed b i
  have hskip := writeExternalApply_skip (writeExternalApply b i).bin
    (writeExternalApply b i).image hp
  refine ⟨?_, ?_, ?_⟩ <;> rw [hskip]

/-- Claim C7: for a URL carrying the indirection extension, both pseudoloader
entry points never answer "not handled" or "error"; with no Cache Bin in the
read options both answer "not found"; with a bin, each answers with the loaded
resource exactly when the bin read succeeds and "not found" exactly when it
fails (including a cache miss). -/
theorem C7_resolver_results (ctx : Option CacheBinRead) (url : String)
    (h : getLowerCaseFileExtension url = "osgearth_cachebin") :
    plReadObject ctx url ≠ PLResult.FILE_NOT_HANDLED ∧
    plReadObject ctx url ≠ PLResult.ERROR_IN_READING_FILE ∧
    plReadImage ctx url ≠ PLResult.FILE_NOT_HANDLED ∧
    plReadImage ctx url ≠ PLResult.ERROR_IN_READING_FILE ∧
    (ctx = none → plReadObject ctx url = PLResult.FILE_NOT_FOUND ∧
                  plReadImage ctx url = PLResult.FILE_NOT_FOUND) ∧
    (∀ cb, ctx = some cb →
      ((∃ o, plReadObject ctx url = PLResult.FILE_LOADED o) ↔
        (cb.readObject (getNameLessExtension url)).isSome = true) ∧
      (plReadObject ctx url = PLResult.FILE_NOT_FOUND ↔
        cb.readObject (getNameLessExtension url) = none) ∧
      ((∃ o, plReadImage ctx url = PLResult.FILE_LOADED o) ↔
        (cb.readImage (getNameLessExtension url)).isSome = true) ∧
      (plReadImage ctx url = PLResult.FILE_NOT_FOUND ↔
        cb.readImage (getNameLessExtension url) = none)) := by
  cases ctx with
  | none => simp [plReadObject, plReadImage, h]
  | some cb =>
    cases ho : cb.readObject (getNameLessExtension url) <;>
    cases hi : cb.readImage (getNameLessExtension url) <;>
      simp [plReadObject, plReadImage, h, ho, hi]

/-- Claim C7, witness: a bin whose object read misses and whose image read
hits, on the URL `"i_1505.osgearth_cachebin"`. -/
theorem C7_witness :
    let cb : CacheBinRead := ⟨fun _ => none, fun _ => some 7⟩
    let url := "i_1505.osgearth_cachebin"
    getLowerCaseFileExtension url = "osgearth_cachebin" ∧
    (plReadObject (some cb) url ≠ PLResult.FILE_NOT_HANDLED ∧
     plReadObject (some cb) url ≠ PLResult.ERROR_IN_READING_FILE ∧
     plReadImage (some cb) url ≠ PLResult.FILE_NOT_HANDLED ∧
     plReadImage (some cb) url ≠ PLResult.ERROR_IN_READING_FILE ∧
     (some cb = none → plReadObject (some cb) url = PLResult.FILE_NOT_FOUND ∧
                   plReadImage (some cb) url = PLResult.FILE_NOT_FOUND) ∧
     (∀ cb2, some cb = some cb2 →
       ((∃ o, plReadObject (some cb) url = PLResult.FILE_LOADED o) ↔
         (cb2.readObject (getNameLessExtension url)).isSome = true) ∧
       (plReadObject (some cb) url = PLResult.FILE_NOT_FOUND ↔
         cb2.readObject (getNameLessExtension url) = none) ∧
       ((∃ o, plReadImage (some cb) url = PLResult.FILE_LOADED o) ↔
         (cb2.readImage (getNameLessExtension url)).isSome = true) ∧
       (plReadImage (some cb) url = PLResult.FILE_NOT_FOUND ↔
         cb2.readImage (getNameLessExtension url) = none))) :=
  ⟨by decide, C7_resolver_results _ _ (by decide)⟩

/-- Claim C8: with the indirection extension and a bin in context, the cache
key is recovered by stripping exactly the final extension (name, dot and
extension reassemble the URL), the object entry point resolves through the
bin's `readObject`, the image entry point resolves through the bin's
`readImage`, and the image entry point's answer is independent of the
`readObject` oracle — an image load is never satisfied through the object
read path. -/
theorem C8_dispatch (fo fo2 fi : String → Option Nat) (url : String)
    (h : getLowerCaseFileExtension url = "osgearth_cachebin") :
    getNameLessExtension url ++ "." ++ getFileExtension url = url ∧
    plReadObject (some ⟨fo, fi⟩) url =
      (match fo (getNameLessExtension url) with
       | some o => PLResult.FILE_LOADED o
       | none => PLResult.FILE_NOT_FOUND) ∧
    plReadImage (some ⟨fo, fi⟩) url =
      (match fi (getNameLessExtension url) with
       | some o => PLResult.FILE_LOADED o
       | none => PLResult.FILE_NOT_FOUND) ∧
    plReadImage (some ⟨fo, fi⟩) url = plReadImage (some ⟨fo2, fi⟩) url := by
  refine ⟨strip_reconstruct url h, ?_, ?_, ?_⟩ <;>
    simp [plReadObject, plReadImage, h]

/-- Claim C8, witness: oracles where the object path would answer 3 but the
image path answers 9 for the key `"i_1505"` — the image entry point returns 9,
and swapping the object oracle changes nothing. -/
theorem C8_witness :
    let fo : String → Option Nat := fun _ => some 3
    let fo2 : String → Option Nat := fun _ => none
    let fi : String → Option Nat := fun k => if k = "i_1505" then some 9 else none
    let url := "i_1505.osgearth_cachebin"
    getLowerCaseFileExtension url = "osgearth_cachebin" ∧
    (getNameLessExtension url ++ "." ++ getFileExtension url = url ∧
     plReadObject (some ⟨fo, fi⟩) url =
       (match fo (getNameLessExtension url) with
        | some o => PLResult.FILE_LOADED o
        | none => PLResult.FILE_NOT_FOUND) ∧
     plReadImage (some ⟨fo, fi⟩) url =
       (match fi (getNameLessExtension url) with
        | some o => PLResult.FILE_LOADED o
        | none => PLResult.FILE_NOT_FOUND) ∧
     plReadImage (some ⟨fo, fi⟩) url = plReadImage (some ⟨fo2, fi⟩) url) :=
  ⟨by decide, C8_dispatch _ _ _ _ (by decide)⟩

/-- Claim C9 (implicit): any two blank-named images derive one and the same
cache key — the prefix plus the hex hash of the empty string — so both end up
rewritten to the identical identifier; and once the first such image has been
written (the bin accepting the write), the key's record status is OK, so a
later blank-named image is treated as already cached and triggers no further
byte-write. -/
theorem C9_blank_collision (b : BinState) (i1 i2 : Image)
    (h1 : i1.fileName = "") (h2 : i2.fileName = "")
    (hw : b.writeOk (IMAGE_PREFIX ++ toHexLower (hashString "")) = true) :
    let key := IMAGE_PREFIX ++ toHexLower (hashString "")
    let r1 := writeExternalApply b i1
    let r2 := writeExternalApply r1.bin i2
    r1.image.fileName = key ++ CACHEBIN_EXT ∧
    r2.image.fileName = r1.image.fileName ∧
    getRecordStatus r1.bin key = RecordStatus.STATUS_OK ∧
    r2.attemptedWrite = false := by
  intro key r1 r2
  have hns1 : oeStartsWith i1.fileName IMAGE_PREFIX = false := by rw [h1]; decide
  have hns2 : oeStartsWith i2.fileName IMAGE_PREFIX = false := by rw [h2]; decide
  have hw1 : b.writeOk (IMAGE_PREFIX ++ toHexLower (hashString i1.fileName)) = true := by
    rw [h1]; exact hw
  have hbin : getRecordStatus r1.bin key = RecordStatus.STATUS_OK := by
    have hmk := writeExternalApply_makes_ok b i1 hns1 hw1
    rw [h1] at hmk
    exact hmk
  have hname1 : r1.image.fileName = key ++ CACHEBIN_EXT := by
    have hf := writeExternalApply_fileName b i1 hns1
    rw [h1] at hf
    exact hf
  have hname2 : r2.image.fileName = key ++ CACHEBIN_EXT := by
    have hf := writeExternalApply_fileName r1.bin i2 hns2
    rw [h2] at hf
    exact hf
  refine ⟨hname1, by rw [hname2, hname1], hbin, ?_⟩
  exact writeExternalApply_no_write_of_ok r1.bin i2 (by rw [h2]; exact hbin)

/-- Claim C9, witness: two distinct blank-named images against an initially
empty, accepting bin — identical rewritten identifiers, and the second image
triggers no byte-write. -/
theorem C9_witness :
    let b : BinState := ⟨fun _ => RecordStatus.STATUS_NOT_FOUND, fun _ => true, []⟩
    let i1 : Image := ⟨"", WriteHint.NO_PREFERENCE, false⟩
    let i2 : Image := ⟨"", WriteHint.STORE_INLINE, true⟩
    let key := IMAGE_PREFIX ++ toHexLower (hashString "")
    let r1 := writeExternalApply b i1
    let r2 := writeExternalApply r1.bin i2
    i1.fileName = "" ∧ i2.fileName = "" ∧ b.writeOk key = true ∧
    (r1.image.fileName = key ++ CACHEBIN_EXT ∧
     r2.image.fileName = r1.image.fileName ∧
     getRecordStatus r1.bin key = RecordStatus.STATUS_OK ∧
     r2.attemptedWrite = false) :=
  ⟨rfl, rfl, rfl, C9_blank_collision _ _ _ rfl rfl rfl⟩

/-- Claim C10 (implicit): a URL whose extension does not match the indirection
marker makes both entry points answer "file not handled" (never "not found"),
leaving the request to the host's normal path resolution; and the match is
case-insensitive — `"KEY.OSGEARTH_CACHEBIN"` is intercepted by both entry
points. -/
theorem C10_fallthrough (ctx : Option CacheBinRead) (url : String)
    (h : getLowerCaseFileExtension url ≠ "osgearth_cachebin") :
    plReadObject ctx url = PLResult.FILE_NOT_HANDLED ∧
    plReadImage ctx url = PLResult.FILE_NOT_HANDLED ∧
    getLowerCaseFileExtension "KEY.OSGEARTH_CACHEBIN" = "osgearth_cachebin" ∧
    plReadObject ctx "KEY.OSGEARTH_CACHEBIN" ≠ PLResult.FILE_NOT_HANDLED ∧
    plReadImage ctx "KEY.OSGEARTH_CACHEBIN" ≠ PLResult.FILE_NOT_HANDLED := by
  have hm : getLowerCaseFileExtension "KEY.OSGEARTH_CACHEBIN" = "osgearth_cachebin" := by
    decide
  have hobj : plReadObject ctx "KEY.OSGEARTH_CACHEBIN" ≠ PLResult.FILE_NOT_HANDLED := by
    cases ctx with
    | none => simp [plReadObject, hm]
    | some cb =>
      cases ho : cb.readObject (getNameLessExtension "KEY.OSGEARTH_CACHEBIN") <;>
        simp [plReadObject, hm, ho]
  have himg : plReadImage ctx "KEY.OSGEARTH_CACHEBIN" ≠ PLResult.FILE_NOT_HANDLED := by
    cases ctx with
    | none => simp [plReadImage, hm]
    | some cb =>
      cases hi : cb.readImage (getNameLessExtension "KEY.OSGEARTH_CACHEBIN") <;>
        simp [plReadImage, hm, hi]
  exact ⟨by simp [plReadObject, h], by simp [plReadImage, h], hm, hobj, himg⟩

/-- Claim C10, witness: with no bin in context, `"a.png"` falls through as
"not handled" while the uppercase-marked URL is intercepted. -/
theorem C10_witness :
    plReadObject none "a.png" = PLResult.FILE_NOT_HANDLED ∧
    plReadImage none "a.png" = PLResult.FILE_NOT_HANDLED ∧
    getLowerCaseFileExtension "KEY.OSGEARTH_CACHEBIN" = "osgearth_cachebin" ∧
    plReadObject none "KEY.OSGEARTH_CACHEBIN" ≠ PLResult.FILE_NOT_HANDLED ∧
    plReadImage none "KEY.OSGEARTH_CACHEBIN" ≠ PLResult.FILE_NOT_HANDLED :=
  C10_fallthrough none "a.png" (by decide)

end CacheBinSpec
